import Mathlib

/-
Verification of `create_connected_switches.py` (`CreateSwitchPair.run`).

Shallow embedding.  The external inventory store (Nautobot's ORM) is modelled
as an explicit `Store` record holding the status vocabulary, devices,
interfaces, cables, address blocks ("prefixes") and address records.  IP
addresses and CIDR blocks are modelled as a numeric value together with a
prefix length (`Addr`); this is faithful to the source, which compares
addresses by their rendered string `f"{ip}/31"` — that rendering is injective
in (value, prefix length), so string equality in the source corresponds
exactly to `Addr` equality here.  Machine-level IPv4 values are plain `Nat`s
(all arithmetic in the source stays far below 2^32, no overflow occurs).

The run is deterministic; randomness (uuid hex suffixes) and the interfaces
the external store attaches to freshly created devices (device-type
templates / configuration management — the source never creates interfaces,
it only queries them) enter through the `Env` record.  Failure paths
(`raise` in Python) are modelled by the `RunResult.err` constructor; because
the store is a persistent database with no rollback, `run` returns the store
as mutated so far even on failure.
-/

/-- An IP address or CIDR network: numeric value plus prefix length.  A
Nautobot `IPAddress.address` string `"a.b.c.d/p"` corresponds to the pair
(numeric value of `a.b.c.d`, `p`). -/
structure Addr where
  value : Nat
  plen : Nat
deriving DecidableEq

/-- An interface record: owning device name and interface name (the source
queries interfaces of a device ordered by name). -/
structure IfaceRec where
  device : String
  name : String
deriving DecidableEq

/-- A device record, mirroring the fields `CreateSwitchPair.run` sets when
constructing a `Device` (lines 66-72 / 81-87). -/
structure DeviceRec where
  name : String
  dtype : String
  role : String
  location : String
  status : String
deriving DecidableEq

/-- A cable record: two interface terminations and a status (lines 116-120). -/
structure CableRec where
  termA : IfaceRec
  termB : IfaceRec
  status : String
deriving DecidableEq

/-- An address-block record (`Prefix`): CIDR, description, status. -/
structure PrefixRec where
  cidr : Addr
  description : String
  status : String
deriving DecidableEq

/-- An address record (`IPAddress`): address value (with prefix-length
annotation), status, and the interfaces it is associated with (the
many-to-many `interfaces` relation, lines 183-184 / 192). -/
structure IPRec where
  addr : Addr
  status : String
  ifaces : List IfaceRec
deriving DecidableEq

/-- The external inventory store. -/
structure Store where
  statuses : List String
  devices : List DeviceRec
  interfaces : List IfaceRec
  cables : List CableRec
  prefixes : List PrefixRec
  ipaddrs : List IPRec
deriving DecidableEq

/-- Inputs of one invocation: the three object selections, the debug flag
(lines 30-51), the uuid hex strings drawn at lines 60-61, and the interface
names the external store attaches to each freshly created device (the source
never creates interfaces; they are pre-seeded by device-type templates /
configuration management outside this code). -/
structure Env where
  location : String
  deviceType : String
  role : String
  debug : Bool
  hex1 : String
  hex2 : String
  ifaces1 : List String
  ifaces2 : List String

/-- Status lookup, `Status.objects.get(name=n)` (lines 55 and 111): the first
status record whose name equals `n`, if any. -/
def getStatus (s : Store) (n : String) : Option String :=
  s.statuses.find? (fun m => decide (m = n))

/-- Name of the first device, `f"switch1-{uuid.uuid4().hex[:6]}"` (line 60). -/
def name1 (env : Env) : String := "switch1-" ++ env.hex1.take 6

/-- Name of the second device, `f"switch2-{uuid.uuid4().hex[:6]}"` (line 61). -/
def name2 (env : Env) : String := "switch2-" ++ env.hex2.take 6

/-- Device creation, `Device(...).validated_save()` (lines 66-73 / 81-88).
Alongside the device record, the external store materialises the device's
pre-seeded interfaces (see `Env`).  Store-side validation is the external
gateway's behaviour; the model covers runs in which the writes succeed. -/
def addDevice (s : Store) (d : DeviceRec) (ifaceNames : List String) : Store :=
  { s with
    devices := s.devices ++ [d],
    interfaces := s.interfaces ++ ifaceNames.map (fun nm => ⟨d.name, nm⟩) }

/-- Creation of the two devices (lines 60-94), given the resolved active
status. -/
def stageDevices (env : Env) (active : String) (s : Store) : Store :=
  addDevice
    (addDevice s ⟨name1 env, env.deviceType, env.role, env.location, active⟩ env.ifaces1)
    ⟨name2 env, env.deviceType, env.role, env.location, active⟩ env.ifaces2

/-- Boolean lexicographic comparison of character lists (by code point). -/
def charsLe : List Char → List Char → Bool
  | [], _ => true
  | _ :: _, [] => false
  | a :: as, b :: bs =>
    if a.toNat < b.toNat then true
    else if b.toNat < a.toNat then false
    else charsLe as bs

/-- Boolean lexicographic order on strings, the ordering behind
`order_by("name")`. -/
def strLe (a b : String) : Bool := charsLe a.data b.data

/-- Stable insertion into a name-sorted interface list. -/
def insertByName (i : IfaceRec) : List IfaceRec → List IfaceRec
  | [] => [i]
  | j :: t => if strLe i.name j.name then i :: j :: t else j :: insertByName i t

/-- Stable sort of interfaces by name ascending, `order_by("name")`. -/
def sortByName : List IfaceRec → List IfaceRec
  | [] => []
  | i :: t => insertByName i (sortByName t)

/-- Interfaces belonging to a device, `switch.interfaces`. -/
def devInterfaces (s : Store) (dev : String) : List IfaceRec :=
  s.interfaces.filter (fun i => decide (i.device = dev))

/-- First interface of a device by name order,
`switch.interfaces.order_by("name").first()` (lines 98, 102, 200). -/
def firstInterface (s : Store) (dev : String) : Option IfaceRec :=
  (sortByName (devInterfaces s dev)).head?

/-- Cable creation, `Cable(...).validated_save()` (lines 116-121). -/
def addCable (s : Store) (i1 i2 : IfaceRec) (status : String) : Store :=
  { s with cables := s.cables ++ [⟨i1, i2, status⟩] }

/-- Numeric value of 10.0.0.0, the base of the parent pool `10.0.0.0/8`
(equals 10 * 2^24). -/
def poolBase : Nat := 167772160

/-- Number of /31 sub-blocks of a /8 pool: 2^(31-8) = 2^23. -/
def numSubnets : Nat := 8388608

/-- The parent pool CIDR `10.0.0.0/8`. -/
def parentCidr : Addr := ⟨poolBase, 8⟩

/-- Parent-block materialisation,
`Prefix.objects.get_or_create(prefix=..., defaults=...)` (lines 127-130):
return the existing block with that exact CIDR if present, otherwise create
one with the given description and status. -/
def ensureParentBlock (s : Store) (cidr : Addr) (descr status : String) :
    PrefixRec × Store :=
  match s.prefixes.find? (fun p => decide (p.cidr = cidr)) with
  | some p => (p, s)
  | none => (⟨cidr, descr, status⟩, { s with prefixes := s.prefixes ++ [⟨cidr, descr, status⟩] })

/-- Leaf-block materialisation, the `try Prefix.objects.get ... except
DoesNotExist: create` at lines 163-174.  Same get-or-create semantics as
`ensureParentBlock`. -/
def ensureLeafBlock (s : Store) (cidr : Addr) (descr status : String) :
    PrefixRec × Store :=
  match s.prefixes.find? (fun p => decide (p.cidr = cidr)) with
  | some p => (p, s)
  | none => (⟨cidr, descr, status⟩, { s with prefixes := s.prefixes ++ [⟨cidr, descr, status⟩] })

/-- Existence check for an address record,
`IPAddress.objects.filter(address=x).exists()` (line 146).  The source
compares the rendered `"a.b.c.d/p"` strings, i.e. value and prefix length
both. -/
def addressExists (assigned : List IPRec) (a : Addr) : Bool :=
  assigned.any (fun r => decide (r.addr = a))

/-- The loop-body condition at line 146 for the /31 sub-block whose network
address is `net`: neither `net/31` nor `(net+1)/31` exists as an address
record. -/
def pairFree (assigned : List IPRec) (net : Nat) : Bool :=
  !addressExists assigned ⟨net, 31⟩ && !addressExists assigned ⟨net + 1, 31⟩

/-- The search loop over `parent_network.subnets(new_prefix=31)`
(lines 140-157): /31 networks are enumerated in ascending numeric order,
network addresses `net, net+2, net+4, ...`; the loop stops at the first free
candidate.  `fuel` counts the remaining candidates. -/
def findLoop (assigned : List IPRec) (net : Nat) : Nat → Option Nat
  | 0 => none
  | fuel + 1 => if pairFree assigned net then some net else findLoop assigned (net + 2) fuel

/-- The free-pair search over the whole pool `10.0.0.0/8` (lines 134-160):
the network address of the first /31 sub-block both of whose addresses are
unrecorded, or `none` when every sub-block is blocked (which the run turns
into the exhaustion error of line 160). -/
def findFirstFreePair (assigned : List IPRec) : Option Nat :=
  findLoop assigned poolBase numSubnets

/-- Address creation and binding, `IPAddress(address=..., status=...)`,
`save`, `ip.interfaces.add(iface)` (lines 180-184 and 189-192). -/
def bindAddress (s : Store) (a : Addr) (status : String) (i : IfaceRec) : Store :=
  { s with ipaddrs := s.ipaddrs ++ [⟨a, status, [i]⟩] }

/-- Dotted-quad rendering of an IPv4 value. -/
def ipStr (v : Nat) : String :=
  toString (v / 16777216 % 256) ++ "." ++ toString (v / 65536 % 256) ++ "." ++
    toString (v / 256 % 256) ++ "." ++ toString (v % 256)

/-- Rendering of an address with its prefix length, `f"{ip}/{plen}"`. -/
def addrStr (a : Addr) : String := ipStr a.value ++ "/" ++ toString a.plen

/-- Third summary column, `IPAddress.objects.filter(interfaces=interface)
.first()` rendered, or `"None"` (lines 201-202). -/
def boundAddrStr (s : Store) (i : IfaceRec) : String :=
  match s.ipaddrs.find? (fun r => decide (i ∈ r.ifaces)) with
  | some r => addrStr r.addr
  | none => "None"

/-- One summary data line (line 203).  The `none` branch is unreachable for
stores produced by a successful run (the Python would raise an
`AttributeError` there); any value may stand in for it. -/
def summaryLine (s : Store) (devName : String) : String :=
  match firstInterface s devName with
  | some i => devName ++ "," ++ i.name ++ "," ++ boundAddrStr s i
  | none => devName

/-- The CSV summary (lines 198-216): header plus one line per device, joined
with newlines. -/
def summary (s : Store) (n1 n2 : String) : String :=
  String.intercalate "\n" ["device,interface,ip_address", summaryLine s n1, summaryLine s n2]

/-- Failure modes of the run: `Status.DoesNotExist` from the two status
lookups, the `ValueError` of lines 100/104, and the exhaustion `Exception`
of line 160. -/
inductive RunError where
  | statusNotFound (name : String)
  | noInterface (device : String)
  | exhaustion
deriving DecidableEq

/-- The human-readable message carried by each failure, copied from the
source's `raise` statements (the status lookup raises Django's generic
does-not-exist message). -/
def errorMessage : RunError → String
  | .statusNotFound _ => "Status matching query does not exist."
  | .noInterface d =>
      "No interface found on device " ++ d ++ ". Please create an interface before running this job."
  | .exhaustion => "No available /31 subnet found in 10.0.0.0/8"

/-- Outcome of one invocation: the returned summary string, or an error. -/
inductive RunResult where
  | ok (output : String)
  | err (e : RunError)
deriving DecidableEq

/-- Boolean success test on a run outcome. -/
def isOk : RunResult → Bool
  | .ok _ => true
  | .err _ => false

/-- The whole of `CreateSwitchPair.run` (lines 53-216), linearised.  Returns
the store as mutated so far together with the outcome; logging is a side
channel and is not modelled. -/
def run (env : Env) (s : Store) : Store × RunResult :=
  match getStatus s "Active" with
  | none => (s, .err (.statusNotFound "Active"))
  | some active =>
    let s1 := stageDevices env active s
    match firstInterface s1 (name1 env) with
    | none => (s1, .err (.noInterface (name1 env)))
    | some i1 =>
      match firstInterface s1 (name2 env) with
      | none => (s1, .err (.noInterface (name2 env)))
      | some i2 =>
        match getStatus s1 "Connected" with
        | none => (s1, .err (.statusNotFound "Connected"))
        | some connected =>
          let s2 := addCable s1 i1 i2 connected
          let s3 := (ensureParentBlock s2 parentCidr "Parent prefix for switch interconnections" active).2
          match findFirstFreePair s3.ipaddrs with
          | none => (s3, .err .exhaustion)
          | some net =>
            let s4 := (ensureLeafBlock s3 ⟨net, 31⟩ "First available /31 subnet for switch interconnection" active).2
            let s5 := bindAddress s4 ⟨net, 31⟩ active i1
            let s6 := bindAddress s5 ⟨net + 1, 31⟩ active i2
            (s6, .ok (summary s6 (name1 env) (name2 env)))

/-
Helper lemmas.
-/

lemma find?_eq_self_of_mem (l : List String) (n : String) (h : n ∈ l) :
    l.find? (fun m => decide (m = n)) = some n := by
  induction l with
  | nil => exact absurd h (List.not_mem_nil n)
  | cons a t ih =>
    rcases List.mem_cons.mp h with h1 | h2
    · subst h1; simp [List.find?_cons]
    · by_cases ha : a = n
      · subst ha; simp [List.find?_cons]
      · simp only [List.find?_cons]
        rw [decide_eq_false ha]
        exact ih h2

lemma getStatus_of_mem (s : Store) (n : String) (h : n ∈ s.statuses) :
    getStatus s n = some n :=
  find?_eq_self_of_mem s.statuses n h

lemma getStatus_of_not_mem (s : Store) (n : String) (h : n ∉ s.statuses) :
    getStatus s n = none := by
  unfold getStatus
  rw [List.find?_eq_none]
  intro x hx
  simp only [decide_eq_true_eq]
  intro he
  exact h (he ▸ hx)

lemma statuses_stageDevices (env : Env) (a : String) (s : Store) :
    (stageDevices env a s).statuses = s.statuses := rfl

lemma ipaddrs_stageDevices (env : Env) (a : String) (s : Store) :
    (stageDevices env a s).ipaddrs = s.ipaddrs := rfl

lemma cables_stageDevices (env : Env) (a : String) (s : Store) :
    (stageDevices env a s).cables = s.cables := rfl

lemma prefixes_stageDevices (env : Env) (a : String) (s : Store) :
    (stageDevices env a s).prefixes = s.prefixes := rfl

lemma devices_stageDevices (env : Env) (a : String) (s : Store) :
    (stageDevices env a s).devices =
      s.devices ++ [⟨name1 env, env.deviceType, env.role, env.location, a⟩] ++
        [⟨name2 env, env.deviceType, env.role, env.location, a⟩] := rfl

lemma interfaces_stageDevices (env : Env) (a : String) (s : Store) :
    (stageDevices env a s).interfaces =
      s.interfaces ++ env.ifaces1.map (fun nm => ⟨name1 env, nm⟩) ++
        env.ifaces2.map (fun nm => ⟨name2 env, nm⟩) := rfl

lemma ipaddrs_addCable (s : Store) (i1 i2 : IfaceRec) (st : String) :
    (addCable s i1 i2 st).ipaddrs = s.ipaddrs := rfl

lemma interfaces_addCable (s : Store) (i1 i2 : IfaceRec) (st : String) :
    (addCable s i1 i2 st).interfaces = s.interfaces := rfl

lemma ipaddrs_ensureParentBlock (s : Store) (c : Addr) (d st : String) :
    ((ensureParentBlock s c d st).2).ipaddrs = s.ipaddrs := by
  unfold ensureParentBlock
  split <;> rfl

lemma interfaces_ensureParentBlock (s : Store) (c : Addr) (d st : String) :
    ((ensureParentBlock s c d st).2).interfaces = s.interfaces := by
  unfold ensureParentBlock
  split <;> rfl

lemma cables_ensureParentBlock (s : Store) (c : Addr) (d st : String) :
    ((ensureParentBlock s c d st).2).cables = s.cables := by
  unfold ensureParentBlock
  split <;> rfl

lemma devices_ensureParentBlock (s : Store) (c : Addr) (d st : String) :
    ((ensureParentBlock s c d st).2).devices = s.devices := by
  unfold ensureParentBlock
  split <;> rfl

lemma ipaddrs_ensureLeafBlock (s : Store) (c : Addr) (d st : String) :
    ((ensureLeafBlock s c d st).2).ipaddrs = s.ipaddrs := by
  unfold ensureLeafBlock
  split <;> rfl

lemma interfaces_ensureLeafBlock (s : Store) (c : Addr) (d st : String) :
    ((ensureLeafBlock s c d st).2).interfaces = s.interfaces := by
  unfold ensureLeafBlock
  split <;> rfl

lemma interfaces_bindAddress (s : Store) (a : Addr) (st : String) (i : IfaceRec) :
    (bindAddress s a st i).interfaces = s.interfaces := rfl

lemma ipaddrs_bindAddress (s : Store) (a : Addr) (st : String) (i : IfaceRec) :
    (bindAddress s a st i).ipaddrs = s.ipaddrs ++ [⟨a, st, [i]⟩] := rfl

lemma names_ne (env : Env) : name1 env ≠ name2 env := by
  intro h
  have hd := congrArg String.data h
  rw [name1, name2, String.data_append, String.data_append] at hd
  have e1 : "switch1-".data = ['s', 'w', 'i', 't', 'c', 'h', '1', '-'] := by decide
  have e2 : "switch2-".data = ['s', 'w', 'i', 't', 'c', 'h', '2', '-'] := by decide
  rw [e1, e2] at hd
  simp at hd

lemma mem_insertByName (x i : IfaceRec) (l : List IfaceRec) :
    x ∈ insertByName i l ↔ x = i ∨ x ∈ l := by
  induction l with
  | nil => simp [insertByName]
  | cons j t ih =>
    unfold insertByName
    split
    · simp [List.mem_cons]
    · simp only [List.mem_cons, ih]
      tauto

lemma mem_sortByName (x : IfaceRec) (l : List IfaceRec) :
    x ∈ sortByName l ↔ x ∈ l := by
  induction l with
  | nil => simp [sortByName]
  | cons i t ih =>
    simp only [sortByName, mem_insertByName, ih, List.mem_cons]

lemma insertByName_ne_nil (i : IfaceRec) (l : List IfaceRec) :
    insertByName i l ≠ [] := by
  cases l with
  | nil => simp [insertByName]
  | cons j t =>
    unfold insertByName
    split <;> simp

lemma sortByName_eq_nil_iff (l : List IfaceRec) : sortByName l = [] ↔ l = [] := by
  cases l with
  | nil => simp [sortByName]
  | cons i t =>
    simp only [sortByName]
    constructor
    · intro h; exact absurd h (insertByName_ne_nil i (sortByName t))
    · intro h; exact absurd h (List.cons_ne_nil i t)

lemma mem_of_head?_eq_some {α : Type} {l : List α} {a : α} (h : l.head? = some a) :
    a ∈ l := by
  cases l with
  | nil => simp at h
  | cons b t =>
    simp only [List.head?_cons, Option.some.injEq] at h
    exact h ▸ List.mem_cons_self b t

lemma device_of_firstInterface (s : Store) (dev : String) (i : IfaceRec)
    (h : firstInterface s dev = some i) : i.device = dev := by
  unfold firstInterface at h
  have hm : i ∈ sortByName (devInterfaces s dev) := mem_of_head?_eq_some h
  have hm' : i ∈ devInterfaces s dev := (mem_sortByName i _).mp hm
  have := List.mem_filter.mp hm'
  exact of_decide_eq_true this.2

lemma firstInterface_of_ne_nil (s : Store) (dev : String)
    (h : devInterfaces s dev ≠ []) : ∃ i, firstInterface s dev = some i := by
  unfold firstInterface
  cases hs : sortByName (devInterfaces s dev) with
  | nil => exact absurd ((sortByName_eq_nil_iff _).mp hs) h
  | cons a t => exact ⟨a, rfl⟩

lemma firstInterface_eq_none_iff (s : Store) (dev : String) :
    firstInterface s dev = none ↔ devInterfaces s dev = [] := by
  unfold firstInterface
  cases hs : sortByName (devInterfaces s dev) with
  | nil => simp [(sortByName_eq_nil_iff _).mp hs]
  | cons a t =>
    simp only [List.head?_cons]
    constructor
    · intro h; exact absurd h (by simp)
    · intro h
      rw [h] at hs
      exact absurd hs.symm (by simp [sortByName])

lemma findLoop_some_spec (assigned : List IPRec) :
    ∀ (fuel net r : Nat), findLoop assigned net fuel = some r →
      ∃ j, j < fuel ∧ r = net + 2 * j ∧ pairFree assigned r = true ∧
        ∀ i, i < j → pairFree assigned (net + 2 * i) = false := by
  intro fuel
  induction fuel with
  | zero => intro net r h; simp [findLoop] at h
  | succ f ih =>
    intro net r h
    by_cases hp : pairFree assigned net = true
    · have hr : r = net := by
        simp only [findLoop, hp, if_true, Option.some.injEq] at h
        exact h.symm
      subst hr
      exact ⟨0, Nat.succ_pos f, by omega, hp, fun i hi => absurd hi (Nat.not_lt_zero i)⟩
    · have hp' : pairFree assigned net = false := Bool.eq_false_iff.mpr hp
      have h' : findLoop assigned (net + 2) f = some r := by
        simpa only [findLoop, hp', if_false, Bool.false_eq_true] using h
      obtain ⟨j, hj, hrj, hfree, hmin⟩ := ih (net + 2) r h'
      refine ⟨j + 1, by omega, by omega, hfree, ?_⟩
      intro i hi
      cases i with
      | zero => simpa using hp'
      | succ i' =>
        have : net + 2 * (i' + 1) = net + 2 + 2 * i' := by ring
        rw [this]
        exact hmin i' (by omega)

lemma findLoop_none_iff (assigned : List IPRec) :
    ∀ (fuel net : Nat), findLoop assigned net fuel = none ↔
      ∀ j, j < fuel → pairFree assigned (net + 2 * j) = false := by
  intro fuel
  induction fuel with
  | zero => intro net; simp [findLoop]
  | succ f ih =>
    intro net
    by_cases hp : pairFree assigned net = true
    · simp only [findLoop, hp, if_true]
      constructor
      · intro h; exact absurd h (by simp)
      · intro h
        have := h 0 (Nat.succ_pos f)
        rw [Nat.mul_zero, Nat.add_zero] at this
        rw [hp] at this
        exact absurd this (by simp)
    · have hp' : pairFree assigned net = false := Bool.eq_false_iff.mpr hp
      simp only [findLoop, hp', if_false, Bool.false_eq_true]
      rw [ih (net + 2)]
      constructor
      · intro h j hj
        cases j with
        | zero => simpa using hp'
        | succ j' =>
          have he : net + 2 * (j' + 1) = net + 2 + 2 * j' := by ring
          rw [he]
          exact h j' (by omega)
      · intro h j hj
        have he : net + 2 + 2 * j = net + 2 * (j + 1) := by ring
        rw [he]
        exact h (j + 1) (by omega)

/-- Store produced by a successful run: devices, interfaces, cable, parent
block, leaf block, two bound addresses. -/
def successStore (env : Env) (s : Store) (i1 i2 : IfaceRec) (net : Nat) : Store :=
  bindAddress
    (bindAddress
      ((ensureLeafBlock
        ((ensureParentBlock (addCable (stageDevices env "Active" s) i1 i2 "Connected")
          parentCidr "Parent prefix for switch interconnections" "Active").2)
        ⟨net, 31⟩ "First available /31 subnet for switch interconnection" "Active").2)
      ⟨net, 31⟩ "Active" i1)
    ⟨net + 1, 31⟩ "Active" i2

/-- Store produced by a run that fails with pool exhaustion: devices,
interfaces, cable and parent block were created; nothing after them. -/
def exhaustStore (env : Env) (s : Store) (i1 i2 : IfaceRec) : Store :=
  (ensureParentBlock (addCable (stageDevices env "Active" s) i1 i2 "Connected")
    parentCidr "Parent prefix for switch interconnections" "Active").2

lemma run_success (env : Env) (s : Store) (i1 i2 : IfaceRec) (net : Nat)
    (hA : "Active" ∈ s.statuses) (hC : "Connected" ∈ s.statuses)
    (h1 : firstInterface (stageDevices env "Active" s) (name1 env) = some i1)
    (h2 : firstInterface (stageDevices env "Active" s) (name2 env) = some i2)
    (hnet : findFirstFreePair s.ipaddrs = some net) :
    run env s = (successStore env s i1 i2 net,
      .ok (summary (successStore env s i1 i2 net) (name1 env) (name2 env))) := by
  have hC' : getStatus (stageDevices env "Active" s) "Connected" = some "Connected" :=
    getStatus_of_mem _ _ hC
  have hip : ((ensureParentBlock (addCable (stageDevices env "Active" s) i1 i2 "Connected")
      parentCidr "Parent prefix for switch interconnections" "Active").2).ipaddrs = s.ipaddrs := by
    rw [ipaddrs_ensureParentBlock, ipaddrs_addCable, ipaddrs_stageDevices]
  have hnet' : findFirstFreePair ((ensureParentBlock
      (addCable (stageDevices env "Active" s) i1 i2 "Connected")
      parentCidr "Parent prefix for switch interconnections" "Active").2).ipaddrs = some net := by
    rw [hip]; exact hnet
  simp only [run, getStatus_of_mem s "Active" hA, h1, h2, hC', hnet', successStore]

lemma run_exhaust (env : Env) (s : Store) (i1 i2 : IfaceRec)
    (hA : "Active" ∈ s.statuses) (hC : "Connected" ∈ s.statuses)
    (h1 : firstInterface (stageDevices env "Active" s) (name1 env) = some i1)
    (h2 : firstInterface (stageDevices env "Active" s) (name2 env) = some i2)
    (hnone : findFirstFreePair s.ipaddrs = none) :
    run env s = (exhaustStore env s i1 i2, .err .exhaustion) := by
  have hC' : getStatus (stageDevices env "Active" s) "Connected" = some "Connected" :=
    getStatus_of_mem _ _ hC
  have hip : ((ensureParentBlock (addCable (stageDevices env "Active" s) i1 i2 "Connected")
      parentCidr "Parent prefix for switch interconnections" "Active").2).ipaddrs = s.ipaddrs := by
    rw [ipaddrs_ensureParentBlock, ipaddrs_addCable, ipaddrs_stageDevices]
  have hnone' : findFirstFreePair ((ensureParentBlock
      (addCable (stageDevices env "Active" s) i1 i2 "Connected")
      parentCidr "Parent prefix for switch interconnections" "Active").2).ipaddrs = none := by
    rw [hip]; exact hnone
  simp only [run, getStatus_of_mem s "Active" hA, h1, h2, hC', hnone', exhaustStore]

lemma run_noiface1 (env : Env) (s : Store)
    (hA : "Active" ∈ s.statuses)
    (h1 : firstInterface (stageDevices env "Active" s) (name1 env) = none) :
    run env s = (stageDevices env "Active" s, .err (.noInterface (name1 env))) := by
  simp only [run, getStatus_of_mem s "Active" hA, h1]

lemma run_noiface2 (env : Env) (s : Store) (i1 : IfaceRec)
    (hA : "Active" ∈ s.statuses)
    (h1 : firstInterface (stageDevices env "Active" s) (name1 env) = some i1)
    (h2 : firstInterface (stageDevices env "Active" s) (name2 env) = none) :
    run env s = (stageDevices env "Active" s, .err (.noInterface (name2 env))) := by
  simp only [run, getStatus_of_mem s "Active" hA, h1, h2]

lemma run_noconnected (env : Env) (s : Store) (i1 i2 : IfaceRec)
    (hA : "Active" ∈ s.statuses) (hC : "Connected" ∉ s.statuses)
    (h1 : firstInterface (stageDevices env "Active" s) (name1 env) = some i1)
    (h2 : firstInterface (stageDevices env "Active" s) (name2 env) = some i2) :
    run env s = (stageDevices env "Active" s, .err (.statusNotFound "Connected")) := by
  have hC' : getStatus (stageDevices env "Active" s) "Connected" = none :=
    getStatus_of_not_mem _ _ hC
  simp only [run, getStatus_of_mem s "Active" hA, h1, h2, hC']

lemma goc_idem (s : Store) (cidr : Addr) (d st : String)
    (huniq : s.prefixes.countP (fun p => decide (p.cidr = cidr)) ≤ 1) :
    (ensureParentBlock (ensureParentBlock s cidr d st).2 cidr d st).1 =
        (ensureParentBlock s cidr d st).1 ∧
    (ensureParentBlock (ensureParentBlock s cidr d st).2 cidr d st).2 =
        (ensureParentBlock s cidr d st).2 ∧
    ((ensureParentBlock s cidr d st).2).prefixes.countP (fun p => decide (p.cidr = cidr)) = 1 := by
  cases hf : s.prefixes.find? (fun p => decide (p.cidr = cidr)) with
  | some q =>
    have h1 : ensureParentBlock s cidr d st = (q, s) := by
      unfold ensureParentBlock; rw [hf]
    have hq : (fun p => decide (p.cidr = cidr)) q = true :=
      @List.find?_some PrefixRec (fun p => decide (p.cidr = cidr)) q s.prefixes hf
    have hcnt : s.prefixes.countP (fun p => decide (p.cidr = cidr)) = 1 := by
      have hpos : 0 < s.prefixes.countP (fun p => decide (p.cidr = cidr)) :=
        List.countP_pos_iff.mpr ⟨q, List.mem_of_find?_eq_some hf, hq⟩
      omega
    rw [h1]
    exact ⟨by rw [h1], by rw [h1], hcnt⟩
  | none =>
    have h1 : ensureParentBlock s cidr d st =
        (⟨cidr, d, st⟩, { s with prefixes := s.prefixes ++ [⟨cidr, d, st⟩] }) := by
      unfold ensureParentBlock; rw [hf]
    have h2 : (s.prefixes ++ [(⟨cidr, d, st⟩ : PrefixRec)]).find?
        (fun p => decide (p.cidr = cidr)) = some ⟨cidr, d, st⟩ := by
      rw [List.find?_append, hf]
      simp [List.find?_cons]
    have h3 : ensureParentBlock { s with prefixes := s.prefixes ++ [(⟨cidr, d, st⟩ : PrefixRec)] }
        cidr d st = (⟨cidr, d, st⟩, { s with prefixes := s.prefixes ++ [⟨cidr, d, st⟩] }) := by
      unfold ensureParentBlock
      rw [show ({ s with prefixes := s.prefixes ++ [(⟨cidr, d, st⟩ : PrefixRec)] } : Store).prefixes
          = s.prefixes ++ [(⟨cidr, d, st⟩ : PrefixRec)] from rfl, h2]
    have hz : s.prefixes.countP (fun p => decide (p.cidr = cidr)) = 0 :=
      List.countP_eq_zero.mpr (List.find?_eq_none.mp hf)
    rw [h1]
    refine ⟨by rw [h3], by rw [h3], ?_⟩
    rw [show ({ s with prefixes := s.prefixes ++ [(⟨cidr, d, st⟩ : PrefixRec)] } : Store).prefixes
        = s.prefixes ++ [(⟨cidr, d, st⟩ : PrefixRec)] from rfl]
    rw [List.countP_append, hz]
    simp [List.countP_cons]

/-- C1: `findFirstFreePair` examines /31 sub-blocks of 10.0.0.0/8 in ascending
numeric order and returns the numerically smallest one with both addresses
unassigned (every earlier candidate has an assigned address); it returns
`none` — the run's exhaustion error — exactly when every sub-block of the
pool has at least one assigned address. -/
theorem findFirstFreePair_first_fit (assigned : List IPRec) :
    (∀ net, findFirstFreePair assigned = some net →
      ∃ k, k < numSubnets ∧ net = poolBase + 2 * k ∧
        pairFree assigned net = true ∧
        ∀ j, j < k → pairFree assigned (poolBase + 2 * j) = false) ∧
    (findFirstFreePair assigned = none ↔
      ∀ k, k < numSubnets → pairFree assigned (poolBase + 2 * k) = false) := by
  constructor
  · intro net h
    exact findLoop_some_spec assigned numSubnets poolBase net h
  · exact findLoop_none_iff assigned numSubnets poolBase

/-- Witness for C1: with exactly `10.0.0.0/31` assigned, the search returns
`10.0.0.2` (the second /31 block), skipping the blocked first block. -/
theorem findFirstFreePair_first_fit_witness :
    ∃ k, k < numSubnets ∧ (167772162 : Nat) = poolBase + 2 * k ∧
      pairFree [⟨⟨167772160, 31⟩, "Active", []⟩] 167772162 = true ∧
      ∀ j, j < k → pairFree [⟨⟨167772160, 31⟩, "Active", []⟩] (poolBase + 2 * j) = false :=
  (findFirstFreePair_first_fit [⟨⟨167772160, 31⟩, "Active", []⟩]).1 167772162 (by decide)

/-- C8: the two device names generated in one run are distinct — the first
always starts with `switch1-`, the second with `switch2-`, whatever hex
suffixes the uuids produce. -/
theorem deviceNames_distinct (env : Env) : name1 env ≠ name2 env := names_ne env

/-- C6: `ensureParentBlock` and `ensureLeafBlock` are idempotent — on a store
whose CIDR-uniqueness invariant holds, a second call with the same CIDR
returns the same block and the same store, and exactly one block with that
CIDR is stored. -/
theorem ensureBlocks_idempotent (s : Store) (cidr : Addr) (d st : String)
    (huniq : s.prefixes.countP (fun p => decide (p.cidr = cidr)) ≤ 1) :
    ((ensureParentBlock (ensureParentBlock s cidr d st).2 cidr d st).1 =
        (ensureParentBlock s cidr d st).1 ∧
     (ensureParentBlock (ensureParentBlock s cidr d st).2 cidr d st).2 =
        (ensureParentBlock s cidr d st).2 ∧
     ((ensureParentBlock s cidr d st).2).prefixes.countP (fun p => decide (p.cidr = cidr)) = 1) ∧
    ((ensureLeafBlock (ensureLeafBlock s cidr d st).2 cidr d st).1 =
        (ensureLeafBlock s cidr d st).1 ∧
     (ensureLeafBlock (ensureLeafBlock s cidr d st).2 cidr d st).2 =
        (ensureLeafBlock s cidr d st).2 ∧
     ((ensureLeafBlock s cidr d st).2).prefixes.countP (fun p => decide (p.cidr = cidr)) = 1) :=
  ⟨goc_idem s cidr d st huniq, goc_idem s cidr d st huniq⟩

/-- Witness for C6: both ensure operations, called twice with `10.0.0.0/8` on
the empty store, store exactly one block and return it identically. -/
theorem ensureBlocks_idempotent_witness :
    ((ensureParentBlock (ensureParentBlock ⟨[], [], [], [], [], []⟩ ⟨167772160, 8⟩ "d" "Active").2
        ⟨167772160, 8⟩ "d" "Active").1 =
      (ensureParentBlock ⟨[], [], [], [], [], []⟩ ⟨167772160, 8⟩ "d" "Active").1 ∧
     (ensureParentBlock (ensureParentBlock ⟨[], [], [], [], [], []⟩ ⟨167772160, 8⟩ "d" "Active").2
        ⟨167772160, 8⟩ "d" "Active").2 =
      (ensureParentBlock ⟨[], [], [], [], [], []⟩ ⟨167772160, 8⟩ "d" "Active").2 ∧
     ((ensureParentBlock ⟨[], [], [], [], [], []⟩ ⟨167772160, 8⟩ "d" "Active").2).prefixes.countP
        (fun p => decide (p.cidr = ⟨167772160, 8⟩)) = 1) ∧
    ((ensureLeafBlock (ensureLeafBlock ⟨[], [], [], [], [], []⟩ ⟨167772160, 8⟩ "d" "Active").2
        ⟨167772160, 8⟩ "d" "Active").1 =
      (ensureLeafBlock ⟨[], [], [], [], [], []⟩ ⟨167772160, 8⟩ "d" "Active").1 ∧
     (ensureLeafBlock (ensureLeafBlock ⟨[], [], [], [], [], []⟩ ⟨167772160, 8⟩ "d" "Active").2
        ⟨167772160, 8⟩ "d" "Active").2 =
      (ensureLeafBlock ⟨[], [], [], [], [], []⟩ ⟨167772160, 8⟩ "d" "Active").2 ∧
     ((ensureLeafBlock ⟨[], [], [], [], [], []⟩ ⟨167772160, 8⟩ "d" "Active").2).prefixes.countP
        (fun p => decide (p.cidr = ⟨167772160, 8⟩)) = 1) :=
  ensureBlocks_idempotent ⟨[], [], [], [], [], []⟩ ⟨167772160, 8⟩ "d" "Active" (by decide)


lemma pairFree_true_iff (assigned : List IPRec) (net : Nat) :
    pairFree assigned net = true ↔
      ∀ r ∈ assigned, r.addr ≠ ⟨net, 31⟩ ∧ r.addr ≠ ⟨net + 1, 31⟩ := by
  simp only [pairFree, addressExists, Bool.and_eq_true, Bool.not_eq_true',
    List.any_eq_false, decide_eq_true_eq]
  constructor
  · intro h r hr
    exact ⟨h.1 r hr, h.2 r hr⟩
  · intro h
    exact ⟨fun r hr => (h r hr).1, fun r hr => (h r hr).2⟩

/-- C10: a /31 candidate is blocked exactly by an existing address record
whose stored value is the candidate address annotated with prefix length 31;
a record holding the same numeric address under any other prefix length never
blocks, so when no record carries prefix length 31 every candidate is free. -/
theorem candidateBlocked_iff_exact31 (assigned : List IPRec) (net : Nat) :
    (pairFree assigned net = false ↔
      ∃ r ∈ assigned, r.addr = ⟨net, 31⟩ ∨ r.addr = ⟨net + 1, 31⟩) ∧
    ((∀ r ∈ assigned, r.addr.plen ≠ 31) → pairFree assigned net = true) := by
  constructor
  · rw [Bool.eq_false_iff, Ne, pairFree_true_iff]
    push_neg
    constructor
    · rintro ⟨r, hr, h⟩
      exact ⟨r, hr, or_iff_not_imp_left.mpr h⟩
    · rintro ⟨r, hr, h⟩
      exact ⟨r, hr, or_iff_not_imp_left.mp h⟩
  · intro h
    rw [pairFree_true_iff]
    intro r hr
    constructor
    · intro he
      exact h r hr (by rw [he])
    · intro he
      exact h r hr (by rw [he])

/-- Witness for C10: a stored record `10.0.0.0/24` does not block the
candidate `10.0.0.0/31`, and the search indeed selects that candidate. -/
theorem candidateBlocked_iff_exact31_witness :
    pairFree [⟨⟨167772160, 24⟩, "Active", []⟩] 167772160 = true ∧
      findFirstFreePair [⟨⟨167772160, 24⟩, "Active", []⟩] = some 167772160 :=
  ⟨(candidateBlocked_iff_exact31 [⟨⟨167772160, 24⟩, "Active", []⟩] 167772160).2 (by decide),
   by decide⟩

lemma findLoop_step_blocked (assigned : List IPRec) (net fuel : Nat)
    (h : pairFree assigned net = false) :
    findLoop assigned net (fuel + 1) = findLoop assigned (net + 2) fuel := by
  simp [findLoop, h]

lemma findLoop_step_free (assigned : List IPRec) (net fuel : Nat)
    (h : pairFree assigned net = true) :
    findLoop assigned net (fuel + 1) = some net := by
  simp [findLoop, h]

lemma statuses_addCable (s : Store) (i1 i2 : IfaceRec) (st : String) :
    (addCable s i1 i2 st).statuses = s.statuses := rfl

lemma statuses_bindAddress (s : Store) (a : Addr) (st : String) (i : IfaceRec) :
    (bindAddress s a st i).statuses = s.statuses := rfl

lemma statuses_ensureParentBlock (s : Store) (c : Addr) (d st : String) :
    ((ensureParentBlock s c d st).2).statuses = s.statuses := by
  unfold ensureParentBlock
  split <;> rfl

lemma statuses_ensureLeafBlock (s : Store) (c : Addr) (d st : String) :
    ((ensureLeafBlock s c d st).2).statuses = s.statuses := by
  unfold ensureLeafBlock
  split <;> rfl

lemma prefixes_bindAddress (s : Store) (a : Addr) (st : String) (i : IfaceRec) :
    (bindAddress s a st i).prefixes = s.prefixes := rfl

lemma cidr_mem_ensureParentBlock (s : Store) (c : Addr) (d st : String) :
    ∃ p ∈ ((ensureParentBlock s c d st).2).prefixes, p.cidr = c := by
  cases hf : s.prefixes.find? (fun p => decide (p.cidr = c)) with
  | some q =>
    have h1 : ensureParentBlock s c d st = (q, s) := by
      unfold ensureParentBlock; rw [hf]
    have hq : (fun p => decide (p.cidr = c)) q = true :=
      @List.find?_some PrefixRec (fun p => decide (p.cidr = c)) q s.prefixes hf
    rw [h1]
    exact ⟨q, List.mem_of_find?_eq_some hf, of_decide_eq_true hq⟩
  | none =>
    have h1 : ensureParentBlock s c d st =
        (⟨c, d, st⟩, { s with prefixes := s.prefixes ++ [⟨c, d, st⟩] }) := by
      unfold ensureParentBlock; rw [hf]
    rw [h1]
    exact ⟨⟨c, d, st⟩, by simp, rfl⟩

lemma cidr_mem_ensureLeafBlock (s : Store) (c : Addr) (d st : String) :
    ∃ p ∈ ((ensureLeafBlock s c d st).2).prefixes, p.cidr = c :=
  cidr_mem_ensureParentBlock s c d st

lemma statuses_successStore (env : Env) (s : Store) (i1 i2 : IfaceRec) (net : Nat) :
    (successStore env s i1 i2 net).statuses = s.statuses := by
  simp only [successStore, statuses_bindAddress, statuses_ensureLeafBlock,
    statuses_ensureParentBlock, statuses_addCable, statuses_stageDevices]

lemma ipaddrs_successStore (env : Env) (s : Store) (i1 i2 : IfaceRec) (net : Nat) :
    (successStore env s i1 i2 net).ipaddrs =
      s.ipaddrs ++ [⟨⟨net, 31⟩, "Active", [i1]⟩, ⟨⟨net + 1, 31⟩, "Active", [i2]⟩] := by
  simp only [successStore, ipaddrs_bindAddress, ipaddrs_ensureLeafBlock,
    ipaddrs_ensureParentBlock, ipaddrs_addCable, ipaddrs_stageDevices, List.append_assoc,
    List.singleton_append]

lemma leaf_mem_successStore (env : Env) (s : Store) (i1 i2 : IfaceRec) (net : Nat) :
    ∃ p ∈ (successStore env s i1 i2 net).prefixes, p.cidr = ⟨net, 31⟩ := by
  simp only [successStore, prefixes_bindAddress]
  exact cidr_mem_ensureLeafBlock _ _ _ _

/-- C2: starting from a store with no assigned addresses, a successful run
allocates the sub-block `10.0.0.0/31` with addresses `10.0.0.0/31` and
`10.0.0.1/31`; a second successful run against the resulting store (fresh
devices, same pool) allocates the sub-block `10.0.0.2/31` with addresses
`10.0.0.2/31` and `10.0.0.3/31`. -/
theorem firstTwoRuns_allocate_first_two_blocks (env env' : Env) (s : Store)
    (i1 i2 i1' i2' : IfaceRec)
    (hA : "Active" ∈ s.statuses) (hC : "Connected" ∈ s.statuses)
    (hempty : s.ipaddrs = [])
    (h1 : firstInterface (stageDevices env "Active" s) (name1 env) = some i1)
    (h2 : firstInterface (stageDevices env "Active" s) (name2 env) = some i2)
    (h1' : firstInterface (stageDevices env' "Active" (run env s).1) (name1 env') = some i1')
    (h2' : firstInterface (stageDevices env' "Active" (run env s).1) (name2 env') = some i2') :
    isOk (run env s).2 = true ∧
    (run env s).1.ipaddrs.map (fun r => r.addr) =
      [⟨poolBase, 31⟩, ⟨poolBase + 1, 31⟩] ∧
    (∃ p ∈ (run env s).1.prefixes, p.cidr = ⟨poolBase, 31⟩) ∧
    isOk (run env' (run env s).1).2 = true ∧
    (run env' (run env s).1).1.ipaddrs.map (fun r => r.addr) =
      [⟨poolBase, 31⟩, ⟨poolBase + 1, 31⟩, ⟨poolBase + 2, 31⟩, ⟨poolBase + 3, 31⟩] ∧
    (∃ p ∈ (run env' (run env s).1).1.prefixes, p.cidr = ⟨poolBase + 2, 31⟩) := by
  have hnet1 : findFirstFreePair s.ipaddrs = some poolBase := by
    rw [hempty]; decide
  have hrun1 := run_success env s i1 i2 poolBase hA hC h1 h2 hnet1
  have hs1 : (run env s).1 = successStore env s i1 i2 poolBase := by rw [hrun1]
  have hip1 : (run env s).1.ipaddrs =
      [⟨⟨poolBase, 31⟩, "Active", [i1]⟩, ⟨⟨poolBase + 1, 31⟩, "Active", [i2]⟩] := by
    rw [hs1, ipaddrs_successStore, hempty, List.nil_append]
  have hA' : "Active" ∈ (run env s).1.statuses := by
    rw [hs1, statuses_successStore]; exact hA
  have hC' : "Connected" ∈ (run env s).1.statuses := by
    rw [hs1, statuses_successStore]; exact hC
  have hb1 : addressExists [⟨⟨poolBase, 31⟩, "Active", [i1]⟩,
      ⟨⟨poolBase + 1, 31⟩, "Active", [i2]⟩] ⟨poolBase, 31⟩ = true :=
    List.any_eq_true.mpr ⟨⟨⟨poolBase, 31⟩, "Active", [i1]⟩, by simp, by simp⟩
  have hpf0 : pairFree [⟨⟨poolBase, 31⟩, "Active", [i1]⟩,
      ⟨⟨poolBase + 1, 31⟩, "Active", [i2]⟩] poolBase = false := by
    simp [pairFree, hb1]
  have hpf1 : pairFree [⟨⟨poolBase, 31⟩, "Active", [i1]⟩,
      ⟨⟨poolBase + 1, 31⟩, "Active", [i2]⟩] (poolBase + 2) = true := by
    rw [pairFree_true_iff]
    have hne1 : (⟨poolBase, 31⟩ : Addr) ≠ ⟨poolBase + 2, 31⟩ := by decide
    have hne2 : (⟨poolBase, 31⟩ : Addr) ≠ ⟨poolBase + 2 + 1, 31⟩ := by decide
    have hne3 : (⟨poolBase + 1, 31⟩ : Addr) ≠ ⟨poolBase + 2, 31⟩ := by decide
    have hne4 : (⟨poolBase + 1, 31⟩ : Addr) ≠ ⟨poolBase + 2 + 1, 31⟩ := by decide
    intro r hr
    rcases List.mem_cons.mp hr with h | h
    · subst h; exact ⟨hne1, hne2⟩
    · rcases List.mem_cons.mp h with h' | h'
      · subst h'; exact ⟨hne3, hne4⟩
      · exact absurd h' (List.not_mem_nil r)
  have hnet2 : findFirstFreePair (run env s).1.ipaddrs = some (poolBase + 2) := by
    rw [hip1]
    show findLoop _ poolBase numSubnets = some (poolBase + 2)
    rw [show numSubnets = 8388607 + 1 from rfl, findLoop_step_blocked _ _ _ hpf0,
      show (8388607 : Nat) = 8388606 + 1 from rfl, findLoop_step_free _ _ _ hpf1]
  have hrun2 := run_success env' (run env s).1 i1' i2' (poolBase + 2) hA' hC' h1' h2' hnet2
  have hs2 : (run env' (run env s).1).1 = successStore env' (run env s).1 i1' i2' (poolBase + 2) := by
    rw [hrun2]
  refine ⟨by rw [hrun1]; rfl, ?_, ?_, by rw [hrun2]; rfl, ?_, ?_⟩
  · rw [hip1]; rfl
  · rw [hs1]; exact leaf_mem_successStore env s i1 i2 poolBase
  · rw [hs2, ipaddrs_successStore, hip1]; rfl
  · rw [hs2]; exact leaf_mem_successStore env' (run env s).1 i1' i2' (poolBase + 2)

/-- Demonstration store: both statuses present, otherwise empty inventory. -/
def demoStore : Store := ⟨["Active", "Connected"], [], [], [], [], []⟩

/-- Demonstration inputs for a first run. -/
def demoEnvA : Env := ⟨"loc", "typ", "role", false, "aaaaaa", "bbbbbb", ["eth0"], ["eth0"]⟩

/-- Demonstration inputs for a second run. -/
def demoEnvB : Env := ⟨"loc", "typ", "role", false, "cccccc", "dddddd", ["eth0"], ["eth0"]⟩

/-- Witness for C2: the scenario evaluated on the demonstration store. -/
theorem firstTwoRuns_allocate_first_two_blocks_witness :
    isOk (run demoEnvA demoStore).2 = true ∧
    (run demoEnvA demoStore).1.ipaddrs.map (fun r => r.addr) =
      [⟨poolBase, 31⟩, ⟨poolBase + 1, 31⟩] ∧
    (∃ p ∈ (run demoEnvA demoStore).1.prefixes, p.cidr = ⟨poolBase, 31⟩) ∧
    isOk (run demoEnvB (run demoEnvA demoStore).1).2 = true ∧
    (run demoEnvB (run demoEnvA demoStore).1).1.ipaddrs.map (fun r => r.addr) =
      [⟨poolBase, 31⟩, ⟨poolBase + 1, 31⟩, ⟨poolBase + 2, 31⟩, ⟨poolBase + 3, 31⟩] ∧
    (∃ p ∈ (run demoEnvB (run demoEnvA demoStore).1).1.prefixes, p.cidr = ⟨poolBase + 2, 31⟩) :=
  firstTwoRuns_allocate_first_two_blocks demoEnvA demoEnvB demoStore
    ⟨"switch1-aaaaaa", "eth0"⟩ ⟨"switch2-bbbbbb", "eth0"⟩
    ⟨"switch1-cccccc", "eth0"⟩ ⟨"switch2-dddddd", "eth0"⟩
    (by decide) (by decide) (by decide) (by decide) (by decide) (by decide) (by decide)

lemma devices_addCable (s : Store) (i1 i2 : IfaceRec) (st : String) :
    (addCable s i1 i2 st).devices = s.devices := rfl

lemma cables_addCable (s : Store) (i1 i2 : IfaceRec) (st : String) :
    (addCable s i1 i2 st).cables = s.cables ++ [⟨i1, i2, st⟩] := rfl

lemma prefixes_addCable (s : Store) (i1 i2 : IfaceRec) (st : String) :
    (addCable s i1 i2 st).prefixes = s.prefixes := rfl

lemma devices_ensureLeafBlock (s : Store) (c : Addr) (d st : String) :
    ((ensureLeafBlock s c d st).2).devices = s.devices := by
  unfold ensureLeafBlock
  split <;> rfl

lemma prefixes_ensure_cases (s : Store) (c : Addr) (d st : String) :
    ((ensureParentBlock s c d st).2).prefixes = s.prefixes ∨
      ((ensureParentBlock s c d st).2).prefixes = s.prefixes ++ [⟨c, d, st⟩] := by
  unfold ensureParentBlock
  cases s.prefixes.find? (fun p => decide (p.cidr = c)) with
  | some q => exact Or.inl rfl
  | none => exact Or.inr rfl

/-- Store with only the "Active" status in the vocabulary. -/
def noConnStore : Store := ⟨["Active"], [], [], [], [], []⟩

/-- Counterexample to C3 as stated: with the "Connected" status absent (and
"Active" present, interfaces pre-seeded), the run does fail over the missing
"Connected" status — but only at line 111, after both devices were created,
so the claim "no Device record is created by that run" is false. -/
theorem connectedMissing_devices_created :
    (run demoEnvA noConnStore).2 = .err (.statusNotFound "Connected") ∧
    noConnStore.devices.length = 0 ∧
    (run demoEnvA noConnStore).1.devices.length = 2 := by decide

/-- C3 (amended): when the "Connected" status name is absent but "Active" is
present and both devices resolve a first interface, the run fails at the
"Connected" lookup — which the source performs after device creation and
interface resolution, not in step 1 — so the two Device records are created,
while no cable, no address block and no address is. -/
theorem connectedMissing_behavior (env : Env) (s : Store) (i1 i2 : IfaceRec)
    (hA : "Active" ∈ s.statuses) (hC : "Connected" ∉ s.statuses)
    (h1 : firstInterface (stageDevices env "Active" s) (name1 env) = some i1)
    (h2 : firstInterface (stageDevices env "Active" s) (name2 env) = some i2) :
    (run env s).2 = .err (.statusNotFound "Connected") ∧
    (run env s).1.devices = s.devices ++
      [⟨name1 env, env.deviceType, env.role, env.location, "Active"⟩,
       ⟨name2 env, env.deviceType, env.role, env.location, "Active"⟩] ∧
    (run env s).1.cables = s.cables ∧
    (run env s).1.prefixes = s.prefixes ∧
    (run env s).1.ipaddrs = s.ipaddrs := by
  have hr := run_noconnected env s i1 i2 hA hC h1 h2
  refine ⟨by rw [hr], ?_, by rw [hr]; exact cables_stageDevices env "Active" s,
    by rw [hr]; exact prefixes_stageDevices env "Active" s,
    by rw [hr]; exact ipaddrs_stageDevices env "Active" s⟩
  rw [hr]
  show (stageDevices env "Active" s).devices = _
  rw [devices_stageDevices, List.append_assoc]
  rfl

/-- Witness for C3's amended theorem, on the demonstration inputs. -/
theorem connectedMissing_behavior_witness :
    (run demoEnvA noConnStore).2 = .err (.statusNotFound "Connected") ∧
    (run demoEnvA noConnStore).1.devices = noConnStore.devices ++
      [⟨name1 demoEnvA, demoEnvA.deviceType, demoEnvA.role, demoEnvA.location, "Active"⟩,
       ⟨name2 demoEnvA, demoEnvA.deviceType, demoEnvA.role, demoEnvA.location, "Active"⟩] ∧
    (run demoEnvA noConnStore).1.cables = noConnStore.cables ∧
    (run demoEnvA noConnStore).1.prefixes = noConnStore.prefixes ∧
    (run demoEnvA noConnStore).1.ipaddrs = noConnStore.ipaddrs :=
  connectedMissing_behavior demoEnvA noConnStore
    ⟨"switch1-aaaaaa", "eth0"⟩ ⟨"switch2-bbbbbb", "eth0"⟩
    (by decide) (by decide) (by decide) (by decide)

lemma ipaddrs_exhaustStore (env : Env) (s : Store) (i1 i2 : IfaceRec) :
    (exhaustStore env s i1 i2).ipaddrs = s.ipaddrs := by
  simp only [exhaustStore, ipaddrs_ensureParentBlock, ipaddrs_addCable, ipaddrs_stageDevices]

lemma devices_exhaustStore (env : Env) (s : Store) (i1 i2 : IfaceRec) :
    (exhaustStore env s i1 i2).devices = s.devices ++
      [⟨name1 env, env.deviceType, env.role, env.location, "Active"⟩,
       ⟨name2 env, env.deviceType, env.role, env.location, "Active"⟩] := by
  simp only [exhaustStore, devices_ensureParentBlock, devices_addCable, devices_stageDevices,
    List.append_assoc]
  rfl

lemma cables_exhaustStore (env : Env) (s : Store) (i1 i2 : IfaceRec) :
    (exhaustStore env s i1 i2).cables = s.cables ++ [⟨i1, i2, "Connected"⟩] := by
  simp only [exhaustStore, cables_ensureParentBlock, cables_addCable, cables_stageDevices]

lemma interfaces_exhaustStore (env : Env) (s : Store) (i1 i2 : IfaceRec) :
    (exhaustStore env s i1 i2).interfaces = s.interfaces ++
      env.ifaces1.map (fun nm => ⟨name1 env, nm⟩) ++
      env.ifaces2.map (fun nm => ⟨name2 env, nm⟩) := by
  simp only [exhaustStore, interfaces_ensureParentBlock, interfaces_addCable,
    interfaces_stageDevices]

lemma prefixes_exhaustStore_cases (env : Env) (s : Store) (i1 i2 : IfaceRec) :
    (exhaustStore env s i1 i2).prefixes = s.prefixes ∨
      (exhaustStore env s i1 i2).prefixes = s.prefixes ++
        [⟨parentCidr, "Parent prefix for switch interconnections", "Active"⟩] :=
  prefixes_ensure_cases (addCable (stageDevices env "Active" s) i1 i2 "Connected")
    parentCidr "Parent prefix for switch interconnections" "Active"

/-- C4: when every /31 sub-block of the pool has at least one assigned
address, the run fails with the exhaustion error and creates no address
record and no /31 leaf block, while the two devices, their interfaces and
the cable created by the earlier steps are in the resulting store (no
rollback). -/
theorem exhaustedPool_behavior (env : Env) (s : Store) (i1 i2 : IfaceRec)
    (hA : "Active" ∈ s.statuses) (hC : "Connected" ∈ s.statuses)
    (h1 : firstInterface (stageDevices env "Active" s) (name1 env) = some i1)
    (h2 : firstInterface (stageDevices env "Active" s) (name2 env) = some i2)
    (hex : ∀ k, k < numSubnets → pairFree s.ipaddrs (poolBase + 2 * k) = false) :
    (run env s).2 = .err .exhaustion ∧
    errorMessage .exhaustion = "No available /31 subnet found in 10.0.0.0/8" ∧
    (run env s).1.ipaddrs = s.ipaddrs ∧
    (∀ p, p ∈ (run env s).1.prefixes → p.cidr.plen = 31 → p ∈ s.prefixes) ∧
    (run env s).1.devices = s.devices ++
      [⟨name1 env, env.deviceType, env.role, env.location, "Active"⟩,
       ⟨name2 env, env.deviceType, env.role, env.location, "Active"⟩] ∧
    (run env s).1.interfaces = s.interfaces ++
      env.ifaces1.map (fun nm => ⟨name1 env, nm⟩) ++
      env.ifaces2.map (fun nm => ⟨name2 env, nm⟩) ∧
    (run env s).1.cables = s.cables ++ [⟨i1, i2, "Connected"⟩] := by
  have hnone : findFirstFreePair s.ipaddrs = none :=
    (findLoop_none_iff s.ipaddrs numSubnets poolBase).mpr hex
  have hr := run_exhaust env s i1 i2 hA hC h1 h2 hnone
  refine ⟨by rw [hr], rfl, by rw [hr]; exact ipaddrs_exhaustStore env s i1 i2, ?_,
    by rw [hr]; exact devices_exhaustStore env s i1 i2,
    by rw [hr]; exact interfaces_exhaustStore env s i1 i2,
    by rw [hr]; exact cables_exhaustStore env s i1 i2⟩
  rw [hr]
  show ∀ p, p ∈ (exhaustStore env s i1 i2).prefixes → p.cidr.plen = 31 → p ∈ s.prefixes
  rcases prefixes_exhaustStore_cases env s i1 i2 with hp | hp
  · rw [hp]
    exact fun p hmem _ => hmem
  · rw [hp]
    intro p hmem h31
    rcases List.mem_append.mp hmem with hin | hin
    · exact hin
    · rcases List.mem_cons.mp hin with he | he
      · subst he
        exact absurd h31 (by decide)
      · exact absurd he (List.not_mem_nil p)

/-- Address records blocking every /31 sub-block of the pool: the network
address of each sub-block, assigned. -/
def fullIPs : List IPRec :=
  (List.range numSubnets).map (fun k => ⟨⟨poolBase + 2 * k, 31⟩, "Active", []⟩)

/-- Store whose pool is fully exhausted. -/
def fullStore : Store := ⟨["Active", "Connected"], [], [], [], [], fullIPs⟩

lemma fullIPs_blocked : ∀ k, k < numSubnets → pairFree fullIPs (poolBase + 2 * k) = false := by
  intro k hk
  have hmem : (⟨⟨poolBase + 2 * k, 31⟩, "Active", []⟩ : IPRec) ∈ fullIPs :=
    List.mem_map.mpr ⟨k, List.mem_range.mpr hk, rfl⟩
  have hex : addressExists fullIPs ⟨poolBase + 2 * k, 31⟩ = true :=
    List.any_eq_true.mpr ⟨⟨⟨poolBase + 2 * k, 31⟩, "Active", []⟩, hmem, by simp⟩
  simp [pairFree, hex]

lemma fullStore_blocked :
    ∀ k, k < numSubnets → pairFree fullStore.ipaddrs (poolBase + 2 * k) = false := by
  have h : fullStore.ipaddrs = fullIPs := by simp only [fullStore]
  rw [h]
  exact fullIPs_blocked

/-- Witness for C4: the exhausted-pool run on the demonstration inputs. -/
theorem exhaustedPool_behavior_witness :
    (run demoEnvA fullStore).2 = .err .exhaustion ∧
    errorMessage .exhaustion = "No available /31 subnet found in 10.0.0.0/8" ∧
    (run demoEnvA fullStore).1.ipaddrs = fullStore.ipaddrs ∧
    (∀ p, p ∈ (run demoEnvA fullStore).1.prefixes → p.cidr.plen = 31 → p ∈ fullStore.prefixes) ∧
    (run demoEnvA fullStore).1.devices = fullStore.devices ++
      [⟨name1 demoEnvA, demoEnvA.deviceType, demoEnvA.role, demoEnvA.location, "Active"⟩,
       ⟨name2 demoEnvA, demoEnvA.deviceType, demoEnvA.role, demoEnvA.location, "Active"⟩] ∧
    (run demoEnvA fullStore).1.interfaces = fullStore.interfaces ++
      demoEnvA.ifaces1.map (fun nm => ⟨name1 demoEnvA, nm⟩) ++
      demoEnvA.ifaces2.map (fun nm => ⟨name2 demoEnvA, nm⟩) ∧
    (run demoEnvA fullStore).1.cables = fullStore.cables ++
      [⟨⟨"switch1-aaaaaa", "eth0"⟩, ⟨"switch2-bbbbbb", "eth0"⟩, "Connected"⟩] :=
  exhaustedPool_behavior demoEnvA fullStore
    ⟨"switch1-aaaaaa", "eth0"⟩ ⟨"switch2-bbbbbb", "eth0"⟩
    (by decide) (by decide) (by decide) (by decide) fullStore_blocked

/-- C5: when a created device has zero interfaces, the run fails with the
missing-interface error naming a device that has zero interfaces (the first
device when it lacks interfaces, otherwise the second), its message spells
out that device's name, and no cable, no address block and no address record
is created in that run. -/
theorem missingInterface_behavior (env : Env) (s : Store)
    (hA : "Active" ∈ s.statuses)
    (h : devInterfaces (stageDevices env "Active" s) (name1 env) = [] ∨
         devInterfaces (stageDevices env "Active" s) (name2 env) = []) :
    ∃ d, (run env s).2 = .err (.noInterface d) ∧
      devInterfaces (stageDevices env "Active" s) d = [] ∧
      errorMessage (.noInterface d) =
        "No interface found on device " ++ d ++
          ". Please create an interface before running this job." ∧
      (run env s).1.cables = s.cables ∧
      (run env s).1.prefixes = s.prefixes ∧
      (run env s).1.ipaddrs = s.ipaddrs ∧
      (d = name1 env ∧ devInterfaces (stageDevices env "Active" s) (name1 env) = [] ∨
       d = name2 env ∧ devInterfaces (stageDevices env "Active" s) (name1 env) ≠ []) := by
  by_cases hd1 : devInterfaces (stageDevices env "Active" s) (name1 env) = []
  · have h1 : firstInterface (stageDevices env "Active" s) (name1 env) = none :=
      (firstInterface_eq_none_iff _ _).mpr hd1
    have hr := run_noiface1 env s hA h1
    exact ⟨name1 env, by rw [hr], hd1, rfl,
      by rw [hr]; exact cables_stageDevices env "Active" s,
      by rw [hr]; exact prefixes_stageDevices env "Active" s,
      by rw [hr]; exact ipaddrs_stageDevices env "Active" s,
      Or.inl ⟨rfl, hd1⟩⟩
  · have hd2 : devInterfaces (stageDevices env "Active" s) (name2 env) = [] := by
      rcases h with h | h
      · exact absurd h hd1
      · exact h
    obtain ⟨i1, hi1⟩ := firstInterface_of_ne_nil _ _ hd1
    have h2 : firstInterface (stageDevices env "Active" s) (name2 env) = none :=
      (firstInterface_eq_none_iff _ _).mpr hd2
    have hr := run_noiface2 env s i1 hA hi1 h2
    exact ⟨name2 env, by rw [hr], hd2, rfl,
      by rw [hr]; exact cables_stageDevices env "Active" s,
      by rw [hr]; exact prefixes_stageDevices env "Active" s,
      by rw [hr]; exact ipaddrs_stageDevices env "Active" s,
      Or.inr ⟨rfl, hd1⟩⟩

/-- Demonstration inputs whose devices get no interfaces seeded. -/
def noIfEnv : Env := ⟨"loc", "typ", "role", false, "eeeeee", "ffffff", [], []⟩

/-- Witness for C5: with no interfaces seeded, the run fails naming a
device with zero interfaces and leaves cables, blocks and addresses alone. -/
theorem missingInterface_behavior_witness :
    ∃ d, (run noIfEnv demoStore).2 = .err (.noInterface d) ∧
      devInterfaces (stageDevices noIfEnv "Active" demoStore) d = [] ∧
      errorMessage (.noInterface d) =
        "No interface found on device " ++ d ++
          ". Please create an interface before running this job." ∧
      (run noIfEnv demoStore).1.cables = demoStore.cables ∧
      (run noIfEnv demoStore).1.prefixes = demoStore.prefixes ∧
      (run noIfEnv demoStore).1.ipaddrs = demoStore.ipaddrs ∧
      (d = name1 noIfEnv ∧
        devInterfaces (stageDevices noIfEnv "Active" demoStore) (name1 noIfEnv) = [] ∨
       d = name2 noIfEnv ∧
        devInterfaces (stageDevices noIfEnv "Active" demoStore) (name1 noIfEnv) ≠ []) :=
  missingInterface_behavior noIfEnv demoStore (by decide) (Or.inl (by decide))

lemma interfaces_successStore (env : Env) (s : Store) (i1 i2 : IfaceRec) (net : Nat) :
    (successStore env s i1 i2 net).interfaces = (stageDevices env "Active" s).interfaces := by
  simp only [successStore, interfaces_bindAddress, interfaces_ensureLeafBlock,
    interfaces_ensureParentBlock, interfaces_addCable]

lemma firstInterface_congr (s s' : Store) (dev : String) (h : s.interfaces = s'.interfaces) :
    firstInterface s dev = firstInterface s' dev := by
  unfold firstInterface devInterfaces
  rw [h]

lemma boundAddrStr_successStore_1 (env : Env) (s : Store) (i1 i2 : IfaceRec) (net : Nat)
    (hfresh1 : ∀ r ∈ s.ipaddrs, i1 ∉ r.ifaces) :
    boundAddrStr (successStore env s i1 i2 net) i1 = addrStr ⟨net, 31⟩ := by
  unfold boundAddrStr
  rw [ipaddrs_successStore, List.find?_append]
  have hnone : s.ipaddrs.find? (fun r => decide (i1 ∈ r.ifaces)) = none :=
    List.find?_eq_none.mpr (fun r hr => by simp [hfresh1 r hr])
  rw [hnone]
  simp [List.find?_cons]

lemma boundAddrStr_successStore_2 (env : Env) (s : Store) (i1 i2 : IfaceRec) (net : Nat)
    (hfresh2 : ∀ r ∈ s.ipaddrs, i2 ∉ r.ifaces) (hne : i2 ≠ i1) :
    boundAddrStr (successStore env s i1 i2 net) i2 = addrStr ⟨net + 1, 31⟩ := by
  unfold boundAddrStr
  rw [ipaddrs_successStore, List.find?_append]
  have hnone : s.ipaddrs.find? (fun r => decide (i2 ∈ r.ifaces)) = none :=
    List.find?_eq_none.mpr (fun r hr => by simp [hfresh2 r hr])
  rw [hnone]
  simp [List.find?_cons, hne]

lemma summary_successStore (env : Env) (s : Store) (i1 i2 : IfaceRec) (net : Nat)
    (h1 : firstInterface (stageDevices env "Active" s) (name1 env) = some i1)
    (h2 : firstInterface (stageDevices env "Active" s) (name2 env) = some i2)
    (hfresh1 : ∀ r ∈ s.ipaddrs, i1 ∉ r.ifaces)
    (hfresh2 : ∀ r ∈ s.ipaddrs, i2 ∉ r.ifaces) (hne : i2 ≠ i1) :
    summary (successStore env s i1 i2 net) (name1 env) (name2 env) =
      String.intercalate "\n" ["device,interface,ip_address",
        name1 env ++ "," ++ i1.name ++ "," ++ addrStr ⟨net, 31⟩,
        name2 env ++ "," ++ i2.name ++ "," ++ addrStr ⟨net + 1, 31⟩] := by
  have hf1 : firstInterface (successStore env s i1 i2 net) (name1 env) = some i1 := by
    rw [firstInterface_congr _ _ (name1 env) (interfaces_successStore env s i1 i2 net), h1]
  have hf2 : firstInterface (successStore env s i1 i2 net) (name2 env) = some i2 := by
    rw [firstInterface_congr _ _ (name2 env) (interfaces_successStore env s i1 i2 net), h2]
  unfold summary summaryLine
  simp only [hf1, hf2, boundAddrStr_successStore_1 env s i1 i2 net hfresh1,
    boundAddrStr_successStore_2 env s i1 i2 net hfresh2 hne]

/-- C7: every successful run returns exactly the header line
`device,interface,ip_address` followed by one data line per device in
creation order, each carrying the device name, its first interface's name,
and the address bound to that interface in this run. -/
theorem run_summary_format (env : Env) (s : Store) (i1 i2 : IfaceRec) (net : Nat)
    (hA : "Active" ∈ s.statuses) (hC : "Connected" ∈ s.statuses)
    (h1 : firstInterface (stageDevices env "Active" s) (name1 env) = some i1)
    (h2 : firstInterface (stageDevices env "Active" s) (name2 env) = some i2)
    (hnet : findFirstFreePair s.ipaddrs = some net)
    (hfresh : ∀ r ∈ s.ipaddrs, i1 ∉ r.ifaces ∧ i2 ∉ r.ifaces) :
    (run env s).2 = .ok (String.intercalate "\n" ["device,interface,ip_address",
      name1 env ++ "," ++ i1.name ++ "," ++ addrStr ⟨net, 31⟩,
      name2 env ++ "," ++ i2.name ++ "," ++ addrStr ⟨net + 1, 31⟩]) := by
  have hne : i2 ≠ i1 := by
    intro he
    have e1 := device_of_firstInterface _ _ _ h1
    have e2 := device_of_firstInterface _ _ _ h2
    rw [he] at e2
    exact names_ne env (e1.symm.trans e2)
  have hrun := run_success env s i1 i2 net hA hC h1 h2 hnet
  rw [hrun]
  show RunResult.ok _ = _
  rw [summary_successStore env s i1 i2 net h1 h2
    (fun r hr => (hfresh r hr).1) (fun r hr => (hfresh r hr).2) hne]

/-- Witness for C7: the summary of a first run on the demonstration store. -/
theorem run_summary_format_witness :
    (run demoEnvA demoStore).2 = .ok (String.intercalate "\n"
      ["device,interface,ip_address",
       name1 demoEnvA ++ "," ++ (⟨"switch1-aaaaaa", "eth0"⟩ : IfaceRec).name ++ "," ++
         addrStr ⟨poolBase, 31⟩,
       name2 demoEnvA ++ "," ++ (⟨"switch2-bbbbbb", "eth0"⟩ : IfaceRec).name ++ "," ++
         addrStr ⟨poolBase + 1, 31⟩]) :=
  run_summary_format demoEnvA demoStore
    ⟨"switch1-aaaaaa", "eth0"⟩ ⟨"switch2-bbbbbb", "eth0"⟩ poolBase
    (by decide) (by decide) (by decide) (by decide) (by decide) (by decide)

/-- C9: in every successful run the address bound to device 1's first
interface is the network (numerically lower) address of the chosen /31
sub-block and the one bound to device 2's first interface is the higher;
they are distinct, differ by exactly one, and both lie inside the chosen
sub-block. -/
theorem run_binds_pair_in_order (env : Env) (s : Store) (i1 i2 : IfaceRec) (net : Nat)
    (hA : "Active" ∈ s.statuses) (hC : "Connected" ∈ s.statuses)
    (h1 : firstInterface (stageDevices env "Active" s) (name1 env) = some i1)
    (h2 : firstInterface (stageDevices env "Active" s) (name2 env) = some i2)
    (hnet : findFirstFreePair s.ipaddrs = some net) :
    isOk (run env s).2 = true ∧
    i1.device = name1 env ∧ i2.device = name2 env ∧
    ∃ a1 a2 : Addr,
      (run env s).1.ipaddrs = s.ipaddrs ++ [⟨a1, "Active", [i1]⟩, ⟨a2, "Active", [i2]⟩] ∧
      a1 = ⟨net, 31⟩ ∧ a2 = ⟨net + 1, 31⟩ ∧
      a1 ≠ a2 ∧ a2.value = a1.value + 1 ∧
      net ≤ a1.value ∧ a1.value < net + 2 ∧ net ≤ a2.value ∧ a2.value < net + 2 := by
  have hrun := run_success env s i1 i2 net hA hC h1 h2 hnet
  refine ⟨by rw [hrun]; rfl, device_of_firstInterface _ _ _ h1, device_of_firstInterface _ _ _ h2,
    ⟨net, 31⟩, ⟨net + 1, 31⟩, ?_, rfl, rfl, ?_, rfl, Nat.le_refl net,
    by show net < net + 2; omega, by show net ≤ net + 1; omega, by show net + 1 < net + 2; omega⟩
  · rw [hrun]
    exact ipaddrs_successStore env s i1 i2 net
  · intro he
    have := congrArg Addr.value he
    simp at this

/-- Witness for C9: the bound pair of a first run on the demonstration
store. -/
theorem run_binds_pair_in_order_witness :
    isOk (run demoEnvA demoStore).2 = true ∧
    (⟨"switch1-aaaaaa", "eth0"⟩ : IfaceRec).device = name1 demoEnvA ∧
    (⟨"switch2-bbbbbb", "eth0"⟩ : IfaceRec).device = name2 demoEnvA ∧
    ∃ a1 a2 : Addr,
      (run demoEnvA demoStore).1.ipaddrs = demoStore.ipaddrs ++
        [⟨a1, "Active", [⟨"switch1-aaaaaa", "eth0"⟩]⟩, ⟨a2, "Active", [⟨"switch2-bbbbbb", "eth0"⟩]⟩] ∧
      a1 = ⟨poolBase, 31⟩ ∧ a2 = ⟨poolBase + 1, 31⟩ ∧
      a1 ≠ a2 ∧ a2.value = a1.value + 1 ∧
      poolBase ≤ a1.value ∧ a1.value < poolBase + 2 ∧
      poolBase ≤ a2.value ∧ a2.value < poolBase + 2 :=
  run_binds_pair_in_order demoEnvA demoStore
    ⟨"switch1-aaaaaa", "eth0"⟩ ⟨"switch2-bbbbbb", "eth0"⟩ poolBase
    (by decide) (by decide) (by decide) (by decide) (by decide)
